import Mathlib

/-!
Shallow embedding of the hq_platform OSAL (POSIX reference backend, plus the
ESP binary-semaphore wrapper) and proofs about its queue, timer, semaphore,
status-name and create-path behaviour.

Sources embedded:
  * src/src/osal/include/osal_error.h, src/src/osal/common/osal_error.c
  * src/src/osal/posix/osal_queue_impl.c
  * src/src/osal/posix/osal_timer_impl.c, posix/osal_impl_timer.h
  * src/src/osal/posix/osal_count_sem_impl.c
  * src/src/osal/posix/osal_mutex_impl.c
  * src/src/osal/esp/osal_bin_sem_impl.c
Machine integers are modelled as Nat/Int with explicit reduction modulo
2^32 where the C code converts between signed status codes and uint32_t.
-/

namespace HqOsal

/-- `OSAL_MAX_DELAY` from osal_common_type.h: 0xFFFFFFFF, "wait forever". -/
def OSAL_MAX_DELAY : Nat := 4294967295

/-- `OSAL_MAX_NAME_LEN` from osal_common_type.h. -/
def OSAL_MAX_NAME_LEN : Nat := 32

/-- `SIZE_MAX` for the 64-bit hosted reference backend (LP64 size_t). -/
def SIZE_MAX_C : Nat := 18446744073709551615

/-- C conversion of a (possibly negative) int value to uint32_t:
reduction modulo 2^32, as performed when `return OSAL_INVALID_POINTER;`
appears in a function whose return type is uint32_t. -/
def uint32_of_int (i : Int) : Nat := (i % 4294967296).toNat

/-- The status taxonomy `osal_status_t` from osal_error.h (all 38 variants). -/
inductive osal_status
  | OSAL_SUCCESS
  | OSAL_ERROR
  | OSAL_INVALID_POINTER
  | OSAL_ERROR_ADDRESS_MISALIGNED
  | OSAL_ERROR_TIMEOUT
  | OSAL_INVALID_INT_NUM
  | OSAL_SEM_FAILURE
  | OSAL_SEM_TIMEOUT
  | OSAL_QUEUE_EMPTY
  | OSAL_QUEUE_FULL
  | OSAL_QUEUE_TIMEOUT
  | OSAL_QUEUE_INVALID_SIZE
  | OSAL_QUEUE_ID_ERROR
  | OSAL_ERR_NAME_TOO_LONG
  | OSAL_ERR_NO_FREE_IDS
  | OSAL_ERR_NAME_TAKEN
  | OSAL_ERR_INVALID_ID
  | OSAL_ERR_NAME_NOT_FOUND
  | OSAL_ERR_SEM_NOT_FULL
  | OSAL_ERR_INVALID_PRIORITY
  | OSAL_INVALID_SEM_VALUE
  | OSAL_ERR_FILE
  | OSAL_ERR_NOT_IMPLEMENTED
  | OSAL_TIMER_ERR_INVALID_ARGS
  | OSAL_TIMER_ERR_TIMER_ID
  | OSAL_TIMER_ERR_UNAVAILABLE
  | OSAL_TIMER_ERR_INTERNAL
  | OSAL_ERR_OBJECT_IN_USE
  | OSAL_ERR_BAD_ADDRESS
  | OSAL_ERR_INCORRECT_OBJ_STATE
  | OSAL_ERR_INCORRECT_OBJ_TYPE
  | OSAL_ERR_STREAM_DISCONNECTED
  | OSAL_ERR_OPERATION_NOT_SUPPORTED
  | OSAL_ERR_INVALID_SIZE
  | OSAL_ERR_OUTPUT_TOO_LARGE
  | OSAL_ERR_INVALID_ARGUMENT
  | OSAL_ERR_TRY_AGAIN
  | OSAL_ERR_EMPTY_SET
  deriving DecidableEq, Repr

/-- The integer value of each `osal_status_t` enumerator (osal_error.h). -/
def statusCode : osal_status → Int
  | .OSAL_SUCCESS => 0
  | .OSAL_ERROR => -1
  | .OSAL_INVALID_POINTER => -2
  | .OSAL_ERROR_ADDRESS_MISALIGNED => -3
  | .OSAL_ERROR_TIMEOUT => -4
  | .OSAL_INVALID_INT_NUM => -5
  | .OSAL_SEM_FAILURE => -6
  | .OSAL_SEM_TIMEOUT => -7
  | .OSAL_QUEUE_EMPTY => -8
  | .OSAL_QUEUE_FULL => -9
  | .OSAL_QUEUE_TIMEOUT => -10
  | .OSAL_QUEUE_INVALID_SIZE => -11
  | .OSAL_QUEUE_ID_ERROR => -12
  | .OSAL_ERR_NAME_TOO_LONG => -13
  | .OSAL_ERR_NO_FREE_IDS => -14
  | .OSAL_ERR_NAME_TAKEN => -15
  | .OSAL_ERR_INVALID_ID => -16
  | .OSAL_ERR_NAME_NOT_FOUND => -17
  | .OSAL_ERR_SEM_NOT_FULL => -18
  | .OSAL_ERR_INVALID_PRIORITY => -19
  | .OSAL_INVALID_SEM_VALUE => -20
  | .OSAL_ERR_FILE => -27
  | .OSAL_ERR_NOT_IMPLEMENTED => -28
  | .OSAL_TIMER_ERR_INVALID_ARGS => -29
  | .OSAL_TIMER_ERR_TIMER_ID => -30
  | .OSAL_TIMER_ERR_UNAVAILABLE => -31
  | .OSAL_TIMER_ERR_INTERNAL => -32
  | .OSAL_ERR_OBJECT_IN_USE => -33
  | .OSAL_ERR_BAD_ADDRESS => -34
  | .OSAL_ERR_INCORRECT_OBJ_STATE => -35
  | .OSAL_ERR_INCORRECT_OBJ_TYPE => -36
  | .OSAL_ERR_STREAM_DISCONNECTED => -37
  | .OSAL_ERR_OPERATION_NOT_SUPPORTED => -38
  | .OSAL_ERR_INVALID_SIZE => -40
  | .OSAL_ERR_OUTPUT_TOO_LARGE => -41
  | .OSAL_ERR_INVALID_ARGUMENT => -42
  | .OSAL_ERR_TRY_AGAIN => -43
  | .OSAL_ERR_EMPTY_SET => -44

/-- `osal_get_status_name` from common/osal_error.c.  The C function takes an
`osal_status_t`, which is an int at the call boundary; the reserved-code
branch inspects raw integer values, so the embedding is over `Int`.  The
switch over the 38 enumerators becomes an equality chain; the default branch
maps the reserved codes -21..-26 and -39 to "OSAL_ERR_RESERVED" and
everything else to "unknown error". -/
def osal_get_status_name (status : Int) : String :=
  if status = 0 then "OSAL_SUCCESS"
  else if status = -1 then "OSAL_ERROR"
  else if status = -2 then "OSAL_INVALID_POINTER"
  else if status = -3 then "OSAL_ERROR_ADDRESS_MISALIGNED"
  else if status = -4 then "OSAL_ERROR_TIMEOUT"
  else if status = -5 then "OSAL_INVALID_INT_NUM"
  else if status = -6 then "OSAL_SEM_FAILURE"
  else if status = -7 then "OSAL_SEM_TIMEOUT"
  else if status = -8 then "OSAL_QUEUE_EMPTY"
  else if status = -9 then "OSAL_QUEUE_FULL"
  else if status = -10 then "OSAL_QUEUE_TIMEOUT"
  else if status = -11 then "OSAL_QUEUE_INVALID_SIZE"
  else if status = -12 then "OSAL_QUEUE_ID_ERROR"
  else if status = -13 then "OSAL_ERR_NAME_TOO_LONG"
  else if status = -14 then "OSAL_ERR_NO_FREE_IDS"
  else if status = -15 then "OSAL_ERR_NAME_TAKEN"
  else if status = -16 then "OSAL_ERR_INVALID_ID"
  else if status = -17 then "OSAL_ERR_NAME_NOT_FOUND"
  else if status = -18 then "OSAL_ERR_SEM_NOT_FULL"
  else if status = -19 then "OSAL_ERR_INVALID_PRIORITY"
  else if status = -20 then "OSAL_INVALID_SEM_VALUE"
  else if status = -27 then "OSAL_ERR_FILE"
  else if status = -28 then "OSAL_ERR_NOT_IMPLEMENTED"
  else if status = -29 then "OSAL_TIMER_ERR_INVALID_ARGS"
  else if status = -30 then "OSAL_TIMER_ERR_TIMER_ID"
  else if status = -31 then "OSAL_TIMER_ERR_UNAVAILABLE"
  else if status = -32 then "OSAL_TIMER_ERR_INTERNAL"
  else if status = -33 then "OSAL_ERR_OBJECT_IN_USE"
  else if status = -34 then "OSAL_ERR_BAD_ADDRESS"
  else if status = -35 then "OSAL_ERR_INCORRECT_OBJ_STATE"
  else if status = -36 then "OSAL_ERR_INCORRECT_OBJ_TYPE"
  else if status = -37 then "OSAL_ERR_STREAM_DISCONNECTED"
  else if status = -38 then "OSAL_ERR_OPERATION_NOT_SUPPORTED"
  else if status = -40 then "OSAL_ERR_INVALID_SIZE"
  else if status = -41 then "OSAL_ERR_OUTPUT_TOO_LARGE"
  else if status = -42 then "OSAL_ERR_INVALID_ARGUMENT"
  else if status = -43 then "OSAL_ERR_TRY_AGAIN"
  else if status = -44 then "OSAL_ERR_EMPTY_SET"
  else if (-26 ≤ status ∧ status ≤ -21) ∨ status = -39 then "OSAL_ERR_RESERVED"
  else "unknown error"

/-! ## Byte-buffer helpers (memcpy on the ring buffer) -/

/-- `memcpy(dst + off, src, src.length)` on a byte list. -/
def memcpyAt (dst : List Nat) (off : Nat) (src : List Nat) : List Nat :=
  dst.take off ++ src ++ dst.drop (off + src.length)

/-- Read `n` bytes starting at offset `off`. -/
def readBytes (l : List Nat) (off n : Nat) : List Nat :=
  (l.drop off).take n

/-! ## struct osal_queue_internal (posix/osal_queue_impl.c) -/

/-- The queue control block: `item_size`, `max_items`, `head`, `tail`,
`count` and the ring `buffer` of `max_items * item_size` bytes.  The
pthread mutex/condvars and the debug name carry no algorithmic state and
are not part of the embedded record; the signalling of `not_empty` /
`not_full` is reported in the operation results instead. -/
structure QueueState where
  item_size : Nat
  max_items : Nat
  head : Nat
  tail : Nat
  count : Nat
  buffer : List Nat
  deriving DecidableEq, Repr

/-- The slot body for index `j`: bytes `[j*item_size, (j+1)*item_size)`. -/
def slotAt (q : QueueState) (j : Nat) : List Nat :=
  readBytes q.buffer (j * q.item_size) q.item_size

/-- The enqueue effect of `osal_queue_send` once space is available:
`memcpy(queue->buffer + queue->tail * queue->item_size, item, item_size)`,
`tail = (tail + 1) % max_items`, `count++`. -/
def sendSlot (q : QueueState) (item : List Nat) : QueueState :=
  { q with
      buffer := memcpyAt q.buffer (q.tail * q.item_size) (item.take q.item_size)
      tail := (q.tail + 1) % q.max_items
      count := q.count + 1 }

/-- The bytes `osal_queue_receive` copies out:
`memcpy(buffer, queue->buffer + queue->head * queue->item_size, item_size)`. -/
def recvRead (q : QueueState) : List Nat :=
  readBytes q.buffer (q.head * q.item_size) q.item_size

/-- The dequeue effect: `head = (head + 1) % max_items`, `count--`. -/
def recvSlot (q : QueueState) : QueueState :=
  { q with head := (q.head + 1) % q.max_items, count := q.count - 1 }

/-- Outcome of one `pthread_cond_wait` / `pthread_cond_timedwait` inside the
send/receive loop.  While the caller is blocked, other threads may operate on
the queue under the mutex, so every outcome carries the queue state observed
at wake-up: `woken` is a 0 return, `timedOut` is ETIMEDOUT, `waitError` is
any other nonzero return. -/
inductive WaitOutcome
  | woken (st : QueueState)
  | timedOut (st : QueueState)
  | waitError (st : QueueState)
  deriving DecidableEq, Repr

/-- The state a wait outcome delivers. -/
def WaitOutcome.state : WaitOutcome → QueueState
  | .woken st => st
  | .timedOut st => st
  | .waitError st => st

/-- Result of `osal_queue_send`: returned status, queue state at return, and
whether `pthread_cond_signal(&queue->not_empty)` was issued. -/
structure SendResult where
  status : osal_status
  state : QueueState
  signaledNotEmpty : Bool
  deriving DecidableEq, Repr

/-- The `while (queue->count == queue->max_items)` loop of
`osal_queue_send`, driven by the finite trace `waits` of condition-wait
outcomes; `none` means the trace was too short to decide the call (the
loop was still blocked). -/
def osal_queue_send_loop (item : List Nat) (timeout_ms : Nat) :
    List WaitOutcome → QueueState → Option SendResult
  | waits, q =>
    if q.count = q.max_items then
      if timeout_ms = 0 then
        some ⟨.OSAL_QUEUE_FULL, q, false⟩
      else
        match waits with
        | [] => none
        | .timedOut st :: _ => some ⟨.OSAL_QUEUE_TIMEOUT, st, false⟩
        | .waitError st :: _ => some ⟨.OSAL_ERROR, st, false⟩
        | .woken st :: rest => osal_queue_send_loop item timeout_ms rest st
    else
      some ⟨.OSAL_SUCCESS, sendSlot q item, true⟩

/-- `osal_queue_send` (posix/osal_queue_impl.c, body after the pointer
guards and deadline computation). -/
def osal_queue_send (q : QueueState) (item : List Nat) (timeout_ms : Nat)
    (waits : List WaitOutcome) : Option SendResult :=
  osal_queue_send_loop item timeout_ms waits q

/-- Result of `osal_queue_receive`: status, state at return, the bytes copied
into the caller's buffer, and whether `not_full` was signalled. -/
structure RecvResult where
  status : osal_status
  state : QueueState
  out : List Nat
  signaledNotFull : Bool
  deriving DecidableEq, Repr

/-- The `while (queue->count == 0)` loop of `osal_queue_receive`. -/
def osal_queue_receive_loop (timeout_ms : Nat) :
    List WaitOutcome → QueueState → Option RecvResult
  | waits, q =>
    if q.count = 0 then
      if timeout_ms = 0 then
        some ⟨.OSAL_QUEUE_EMPTY, q, [], false⟩
      else
        match waits with
        | [] => none
        | .timedOut st :: _ => some ⟨.OSAL_QUEUE_TIMEOUT, st, [], false⟩
        | .waitError st :: _ => some ⟨.OSAL_ERROR, st, [], false⟩
        | .woken st :: rest => osal_queue_receive_loop timeout_ms rest st
    else
      some ⟨.OSAL_SUCCESS, recvSlot q, recvRead q, true⟩

/-- `osal_queue_receive` (posix/osal_queue_impl.c), symmetric to send. -/
def osal_queue_receive (q : QueueState) (timeout_ms : Nat)
    (waits : List WaitOutcome) : Option RecvResult :=
  osal_queue_receive_loop timeout_ms waits q

/-- `osal_queue_get_count` (posix/osal_queue_impl.c): a NULL handle trips
`OSAL_CHECK_POINTER`, whose `return OSAL_INVALID_POINTER;` is converted to
the uint32_t return type; a failed mutex lock returns 0; otherwise the
count is read under the mutex and the state is untouched. -/
def osal_queue_get_count (h : Option QueueState) (lockOk : Bool) : Nat :=
  match h with
  | none => uint32_of_int (statusCode .OSAL_INVALID_POINTER)
  | some q => if lockOk then q.count else 0

/-! ## Resource bookkeeping for the create paths -/

/-- An allocation / release event during a create call (malloc/free,
`pthread_mutex_init`/`destroy`, `pthread_cond_init`/`destroy`,
`pthread_create`). -/
inductive REvent (α : Type)
  | alloc (r : α)
  | free (r : α)
  deriving DecidableEq, Repr

/-- The resources still held after a sequence of events. -/
def liveRes {α : Type} [DecidableEq α] (evs : List (REvent α)) : List α :=
  evs.foldl
    (fun acc e =>
      match e with
      | .alloc r => acc ++ [r]
      | .free r => acc.erase r)
    []

/-- Was the `memchr(name, 0, OSAL_MAX_NAME_LEN)` length guard violated?
`nameLen` is `strlen(name)` for a non-NULL name, `none` for `name == NULL`
(the guard is skipped). -/
def nameTooLong (nameLen : Option Nat) : Bool :=
  match nameLen with
  | none => false
  | some n => decide (OSAL_MAX_NAME_LEN ≤ n)

/-! ## osal_queue_create (posix/osal_queue_impl.c) -/

/-- The resources a queue create call touches. -/
inductive QueueRes
  | ctrl
  | buf
  | mtx
  | condNotEmpty
  | condNotFull
  deriving DecidableEq, Repr

/-- Fallibility oracle for the allocation / init steps of
`osal_queue_create`, plus the indeterminate contents malloc hands back for
the ring buffer. -/
structure QueueAllocEnv where
  ctrlOk : Bool
  bufOk : Bool
  mutexOk : Bool
  notEmptyOk : Bool
  notFullOk : Bool
  bufBytes : List Nat
  deriving Repr

/-- Result of `osal_queue_create`: status, the out-parameter (written iff
some), and the allocation events performed. -/
structure QueueCreateResult where
  status : osal_status
  handle : Option QueueState
  events : List (REvent QueueRes)
  deriving DecidableEq, Repr

/-- `osal_queue_create` (posix/osal_queue_impl.c).  Guards in source order:
`OSAL_CHECK_POINTER(queue_id)`, the optional name length check,
`ARGCHECK(max_items > 0)`, `ARGCHECK(item_size > 0)`, the
`max_items > SIZE_MAX / item_size` overflow check; then control-block
malloc, ring-buffer malloc, mutex init and the two condvar inits, each
failure unwinding exactly what was already allocated. -/
def osal_queue_create (queueIdNull : Bool) (nameLen : Option Nat)
    (max_items item_size : Nat) (env : QueueAllocEnv) : QueueCreateResult :=
  if queueIdNull then ⟨.OSAL_INVALID_POINTER, none, []⟩
  else if nameTooLong nameLen then ⟨.OSAL_ERR_NAME_TOO_LONG, none, []⟩
  else if ¬ 0 < max_items then ⟨.OSAL_QUEUE_INVALID_SIZE, none, []⟩
  else if ¬ 0 < item_size then ⟨.OSAL_QUEUE_INVALID_SIZE, none, []⟩
  else if SIZE_MAX_C / item_size < max_items then ⟨.OSAL_QUEUE_INVALID_SIZE, none, []⟩
  else
    if ¬ env.ctrlOk then ⟨.OSAL_ERROR, none, []⟩
    else if ¬ env.bufOk then
      ⟨.OSAL_ERROR, none, [.alloc .ctrl, .free .ctrl]⟩
    else if ¬ env.mutexOk then
      ⟨.OSAL_ERROR, none, [.alloc .ctrl, .alloc .buf, .free .buf, .free .ctrl]⟩
    else if ¬ env.notEmptyOk then
      ⟨.OSAL_ERROR, none,
        [.alloc .ctrl, .alloc .buf, .alloc .mtx, .free .mtx, .free .buf, .free .ctrl]⟩
    else if ¬ env.notFullOk then
      ⟨.OSAL_ERROR, none,
        [.alloc .ctrl, .alloc .buf, .alloc .mtx, .alloc .condNotEmpty,
         .free .condNotEmpty, .free .mtx, .free .buf, .free .ctrl]⟩
    else
      ⟨.OSAL_SUCCESS,
        some
          { item_size := item_size
            max_items := max_items
            head := 0
            tail := 0
            count := 0
            buffer := (env.bufBytes ++ List.replicate (max_items * item_size) 0).take
              (max_items * item_size) }
        , [.alloc .ctrl, .alloc .buf, .alloc .mtx, .alloc .condNotEmpty, .alloc .condNotFull]⟩

/-! ## osal_count_sem_create / osal_count_sem_get_count (posix) -/

/-- The single heap resource of a counting-semaphore create: the sem_t. -/
inductive CountSemRes
  | ctrl
  deriving DecidableEq, Repr

/-- Result of `osal_count_sem_create`; the handle carries the initialized
semaphore value. -/
structure CountSemCreateResult where
  status : osal_status
  handle : Option Nat
  events : List (REvent CountSemRes)
  deriving DecidableEq, Repr

/-- `osal_count_sem_create` (posix/osal_count_sem_impl.c): pointer guard,
optional name guard, `max_value != 0 && initial_value > max_value` check,
sem_t malloc, `sem_init`; `sem_init` failure frees the block. -/
def osal_count_sem_create (semIdNull : Bool) (nameLen : Option Nat)
    (initial_value max_value : Nat) (ctrlOk semInitOk : Bool) : CountSemCreateResult :=
  if semIdNull then ⟨.OSAL_INVALID_POINTER, none, []⟩
  else if nameTooLong nameLen then ⟨.OSAL_ERR_NAME_TOO_LONG, none, []⟩
  else if max_value ≠ 0 ∧ max_value < initial_value then ⟨.OSAL_INVALID_SEM_VALUE, none, []⟩
  else if ¬ ctrlOk then ⟨.OSAL_ERROR, none, []⟩
  else if ¬ semInitOk then ⟨.OSAL_ERROR, none, [.alloc .ctrl, .free .ctrl]⟩
  else ⟨.OSAL_SUCCESS, some initial_value, [.alloc .ctrl]⟩

/-- `osal_count_sem_get_count` (posix/osal_count_sem_impl.c): a NULL handle
trips `OSAL_CHECK_POINTER`, converting `OSAL_INVALID_POINTER` to the
uint32_t return type; a `sem_getvalue` failure returns 0; a negative value
returns 0; otherwise the value. -/
def osal_count_sem_get_count (h : Option Int) (getOk : Bool) : Nat :=
  match h with
  | none => uint32_of_int (statusCode .OSAL_INVALID_POINTER)
  | some v => if getOk then (if v < 0 then 0 else v.toNat) else 0

/-! ## osal_mutex_create (posix/osal_mutex_impl.c) -/

/-- Resources of a mutex create: the malloc'd block and the initialized
pthread mutex. -/
inductive MutexRes
  | ctrl
  | mtx
  deriving DecidableEq, Repr

/-- Result of `osal_mutex_create`. -/
structure MutexCreateResult where
  status : osal_status
  handle : Option Unit
  events : List (REvent MutexRes)
  deriving DecidableEq, Repr

/-- `osal_mutex_create` (posix/osal_mutex_impl.c): pointer guard, optional
name guard, malloc, `pthread_mutex_init`; init failure frees the block. -/
def osal_mutex_create (mutexIdNull : Bool) (nameLen : Option Nat)
    (ctrlOk mtxOk : Bool) : MutexCreateResult :=
  if mutexIdNull then ⟨.OSAL_INVALID_POINTER, none, []⟩
  else if nameTooLong nameLen then ⟨.OSAL_ERR_NAME_TOO_LONG, none, []⟩
  else if ¬ ctrlOk then ⟨.OSAL_ERROR, none, []⟩
  else if ¬ mtxOk then ⟨.OSAL_ERROR, none, [.alloc .ctrl, .free .ctrl]⟩
  else ⟨.OSAL_SUCCESS, some (), [.alloc .ctrl, .alloc .mtx]⟩

/-! ## struct osal_timer_internal (posix/osal_impl_timer.h) and the worker -/

/-- Timer control block fields with algorithmic content: `period_ms`,
`auto_reload`, `active`, `stop_requested`, plus the worker thread's local
`deadline` (the absolute expiry instant, in ms of the monotonic clock, that
the worker is currently sleeping towards).  The pthread objects, the name
and the user-context pointer carry no control-flow state. -/
structure TimerState where
  period_ms : Nat
  auto_reload : Bool
  active : Bool
  stop_requested : Bool
  deadline : Nat
  deriving DecidableEq, Repr

/-- `osal_timer_start` (posix/osal_timer_impl.c): under the mutex set
`active = true` and `pthread_cond_signal(&timer->cond)`.  The Bool records
that the condition variable was signalled. -/
def osal_timer_start (t : TimerState) : TimerState × Bool :=
  ({ t with active := true }, true)

/-- `osal_timer_reset` (posix/osal_timer_impl.c): identical body to
`osal_timer_start`. -/
def osal_timer_reset (t : TimerState) : TimerState × Bool :=
  ({ t with active := true }, true)

/-- `osal_timer_stop` (posix/osal_timer_impl.c). -/
def osal_timer_stop (t : TimerState) : TimerState × Bool :=
  ({ t with active := false }, true)

/-- `osal_timer_is_active` (posix/osal_timer_impl.c): false for NULL,
otherwise `timer->active` read under the mutex. -/
def osal_timer_is_active : Option TimerState → Bool
  | none => false
  | some t => t.active

/-- How one `pthread_cond_timedwait` in the worker's inner loop returned:
ETIMEDOUT, 0 (woken by a command's `pthread_cond_signal`), or another
error. -/
inductive TimerWake
  | timedOut
  | signaled
  | waitError
  deriving DecidableEq, Repr

/-- What the worker did with one wake: resulting timer state, whether the
user callback was invoked, and whether the inner `while (active && !stop)`
loop was exited by an explicit `break`. -/
structure TimerStepResult where
  st : TimerState
  firedCb : Bool
  exitInner : Bool
  deriving DecidableEq, Repr

/-- One iteration of the inner loop of `osal_timer_thread`
(posix/osal_timer_impl.c, the body handling the `pthread_cond_timedwait`
return value).  `t` is the timer state observed at wake-up (commands run
under the mutex, so their field updates are already visible), `now` the
monotonic clock at that instant, `clockOk` whether `clock_gettime` in
`osal_timer_get_deadline` succeeds:

* ETIMEDOUT: save the callback; if not auto-reload, mark dormant; else
  rearm with `deadline = now + period` (clock failure marks dormant);
  unlock, invoke the callback, relock; if not auto-reload, `break`.
* 0 (signalled): if no longer active or stop requested, `break`; else
  recompute `deadline = now + period` (clock failure marks dormant and
  breaks) and wait again.
* other error: mark dormant and `break`. -/
def osal_timer_wake_step (t : TimerState) (w : TimerWake) (now : Nat)
    (clockOk : Bool) : TimerStepResult :=
  match w with
  | .timedOut =>
    if ¬ t.auto_reload then
      ⟨{ t with active := false }, true, true⟩
    else if clockOk then
      ⟨{ t with deadline := now + t.period_ms }, true, false⟩
    else
      ⟨{ t with active := false }, true, false⟩
  | .signaled =>
    if ¬ t.active ∨ t.stop_requested then ⟨t, false, true⟩
    else if clockOk then ⟨{ t with deadline := now + t.period_ms }, false, false⟩
    else ⟨{ t with active := false }, false, true⟩
  | .waitError => ⟨{ t with active := false }, false, true⟩

/-! ## osal_timer_create (posix/osal_timer_impl.c) -/

/-- Resources of a timer create: the (dynamically allocated) control block,
the initialized mutex and condvar, and the worker thread. -/
inductive TimerRes
  | ctrl
  | mtx
  | cond
  | worker
  deriving DecidableEq, Repr

/-- Result of `osal_timer_create`. -/
structure TimerCreateResult where
  status : osal_status
  handle : Option TimerState
  events : List (REvent TimerRes)
  deriving DecidableEq, Repr

/-- `osal_timer_create` (posix/osal_timer_impl.c): pointer guards on
`timer_id` and `callback`, optional name guard, `period_ms > 0` check; a
non-NULL `stack_pointer` must satisfy
`stack_size >= sizeof(struct osal_timer_internal)` (`ctrlSize` here) and is
used in place of malloc; `osal_timer_init` initializes mutex and condvar
(each failure unwinding); `pthread_create` failure destroys both and frees
a dynamic block.  On success the timer starts dormant
(`memset(timer, 0, ...)` clears `active` and `stop_requested`). -/
def osal_timer_create (timerIdNull cbNull : Bool) (nameLen : Option Nat)
    (period_ms : Nat) (auto_reload : Bool) (staticBuf : Bool)
    (staticSize ctrlSize : Nat) (ctrlOk mutexOk condOk threadOk : Bool) :
    TimerCreateResult :=
  let ctrlAlloc : List (REvent TimerRes) := if staticBuf then [] else [.alloc .ctrl]
  let ctrlFree : List (REvent TimerRes) := if staticBuf then [] else [.free .ctrl]
  if timerIdNull then ⟨.OSAL_INVALID_POINTER, none, []⟩
  else if cbNull then ⟨.OSAL_INVALID_POINTER, none, []⟩
  else if nameTooLong nameLen then ⟨.OSAL_ERR_NAME_TOO_LONG, none, []⟩
  else if ¬ 0 < period_ms then ⟨.OSAL_TIMER_ERR_INVALID_ARGS, none, []⟩
  else if staticBuf ∧ staticSize < ctrlSize then ⟨.OSAL_ERR_INVALID_SIZE, none, []⟩
  else if ¬ staticBuf ∧ ¬ ctrlOk then ⟨.OSAL_ERROR, none, []⟩
  else if ¬ mutexOk then ⟨.OSAL_ERROR, none, ctrlAlloc ++ ctrlFree⟩
  else if ¬ condOk then
    ⟨.OSAL_ERROR, none, ctrlAlloc ++ [.alloc .mtx, .free .mtx] ++ ctrlFree⟩
  else if ¬ threadOk then
    ⟨.OSAL_ERROR, none,
      ctrlAlloc ++ [.alloc .mtx, .alloc .cond, .free .cond, .free .mtx] ++ ctrlFree⟩
  else
    ⟨.OSAL_SUCCESS,
      some
        { period_ms := period_ms
          auto_reload := auto_reload
          active := false
          stop_requested := false
          deadline := 0 }
      , ctrlAlloc ++ [.alloc .mtx, .alloc .cond, .alloc .worker]⟩

/-! ## The ESP binary semaphore (esp/osal_bin_sem_impl.c over FreeRTOS) -/

/-- The two states of a binary semaphore. -/
inductive BinSemVal
  | empty
  | full
  deriving DecidableEq, Repr

/-- FreeRTOS `xSemaphoreGive` on a binary semaphore.  FreeRTOS is an
external dependency, not part of this repository; modelled from its
documented semantics: a binary semaphore is a length-1 queue, so giving
when the token is already present fails (`errQUEUE_FULL`, i.e. pdFALSE)
and leaves the semaphore full, while giving when empty deposits the token
and returns pdTRUE. -/
def xSemaphoreGive : BinSemVal → Bool × BinSemVal
  | .full => (false, .full)
  | .empty => (true, .full)

/-- `osal_bin_sem_give` (esp/osal_bin_sem_impl.c):
`if (xSemaphoreGive(sem_id) != pdTRUE) return OSAL_SEM_FAILURE;
 return OSAL_SUCCESS;` -/
def osal_bin_sem_give (s : BinSemVal) : osal_status × BinSemVal :=
  let r := xSemaphoreGive s
  (if r.1 = true then .OSAL_SUCCESS else .OSAL_SEM_FAILURE, r.2)

/-! ## Invariants and the list abstraction of the ring buffer -/

/-- The claimed queue invariant: `count ∈ [0, capacity]`, `head` and `tail`
in `[0, capacity)` (the lower bounds are inherent to Nat). -/
def QInv (q : QueueState) : Prop :=
  q.count ≤ q.max_items ∧ q.head < q.max_items ∧ q.tail < q.max_items

/-- Full well-formedness of a queue created with capacity `C` and item size
`S`: field values, `tail` determined by `head + count` modulo `C`, and the
ring buffer spanning `C * S` bytes. -/
def QueueWF (S C : Nat) (q : QueueState) : Prop :=
  q.item_size = S ∧ q.max_items = C ∧ 0 < C ∧ q.count ≤ C ∧ q.head < C ∧
    q.tail = (q.head + q.count) % C ∧ q.buffer.length = C * S

/-- The abstract content of the queue: the `count` items starting at `head`
in ring order. -/
def absQ (q : QueueState) : List (List Nat) :=
  (List.range q.count).map (fun i => slotAt q ((q.head + i) % q.max_items))

/-- All wait outcomes of a trace deliver states satisfying `QInv`. -/
def waitsInv (waits : List WaitOutcome) : Prop :=
  ∀ w ∈ waits, QInv w.state

/-! ## Loop traces for the send timeout regimes -/

/-- `ExpiryTrace q waits qf`: starting the send loop on the full queue `q`,
the wait trace keeps the queue full across every 0-return wake until a wait
returns ETIMEDOUT (delivering state `qf`) — the deadline expired. -/
inductive ExpiryTrace : QueueState → List WaitOutcome → QueueState → Prop
  | expire (q st : QueueState) (rest : List WaitOutcome)
      (hfull : q.count = q.max_items) :
      ExpiryTrace q (.timedOut st :: rest) st
  | step (q st qf : QueueState) (rest : List WaitOutcome)
      (hfull : q.count = q.max_items) (hstfull : st.count = st.max_items)
      (htr : ExpiryTrace st rest qf) :
      ExpiryTrace q (.woken st :: rest) qf

/-- `SpaceTrace q waits qf`: the send loop started at `q` reaches a state
`qf` with free space, either immediately or after 0-return wakes. -/
inductive SpaceTrace : QueueState → List WaitOutcome → QueueState → Prop
  | here (q : QueueState) (waits : List WaitOutcome)
      (hspace : q.count ≠ q.max_items) :
      SpaceTrace q waits q
  | step (q st qf : QueueState) (rest : List WaitOutcome)
      (hfull : q.count = q.max_items)
      (htr : SpaceTrace st rest qf) :
      SpaceTrace q (.woken st :: rest) qf

/-! ## Sequential operation traces for the FIFO claim -/

/-- One immediate (poll-mode, successful) queue operation. -/
inductive QOp
  | send (item : List Nat)
  | recv
  deriving DecidableEq, Repr

/-- The items a sequence of operations enqueues, in order. -/
def sentOf : List QOp → List (List Nat)
  | [] => []
  | .send it :: ops => it :: sentOf ops
  | .recv :: ops => sentOf ops

/-- Every item sent by the operation sequence is exactly `S` bytes. -/
def sendLens (S : Nat) (ops : List QOp) : Prop :=
  ∀ it, QOp.send it ∈ ops → it.length = S

/-- Run a sequence of poll-mode operations through `osal_queue_send` /
`osal_queue_receive`, requiring each to return `OSAL_SUCCESS`; collects the
bytes each receive copied out.  `none` if any operation did not succeed. -/
def runOps : QueueState → List QOp → Option (QueueState × List (List Nat))
  | q, [] => some (q, [])
  | q, .send it :: ops =>
    match osal_queue_send q it 0 [] with
    | some r => if r.status = .OSAL_SUCCESS then runOps r.state ops else none
    | none => none
  | q, .recv :: ops =>
    match osal_queue_receive q 0 [] with
    | some r =>
      if r.status = .OSAL_SUCCESS then
        match runOps r.state ops with
        | some (qf, outs) => some (qf, r.out :: outs)
        | none => none
      else none
    | none => none

/-! ## Lemmas about the byte-level memcpy model -/

theorem length_memcpyAt (dst src : List Nat) (off : Nat)
    (h : off + src.length ≤ dst.length) :
    (memcpyAt dst off src).length = dst.length := by
  simp only [memcpyAt, List.length_append, List.length_take, List.length_drop]
  omega

theorem readBytes_memcpyAt_self (dst src : List Nat) (off : Nat)
    (h : off + src.length ≤ dst.length) :
    readBytes (memcpyAt dst off src) off src.length = src := by
  have htk : (dst.take off).length = off := by
    simp only [List.length_take]; omega
  simp only [readBytes, memcpyAt, List.append_assoc]
  rw [List.drop_append_eq_append_drop,
    List.drop_of_length_le (le_of_eq htk), List.nil_append, htk,
    Nat.sub_self, List.drop_zero, List.take_append_eq_append_take,
    List.take_length, Nat.sub_self, List.take_zero, List.append_nil]

theorem readBytes_memcpyAt_before (dst src : List Nat) (off a n : Nat)
    (han : a + n ≤ off) (hoff : off ≤ dst.length) :
    readBytes (memcpyAt dst off src) a n = readBytes dst a n := by
  have htk : (dst.take off).length = off := by
    simp only [List.length_take]; omega
  have hdl : (List.drop a (dst.take off)).length = off - a := by
    simp only [List.length_drop, htk]
  simp only [readBytes, memcpyAt, List.append_assoc]
  rw [List.drop_append_eq_append_drop, htk,
    Nat.sub_eq_zero_of_le (by omega : a ≤ off), List.drop_zero,
    List.take_append_eq_append_take, hdl,
    Nat.sub_eq_zero_of_le (by omega : n ≤ off - a), List.take_zero,
    List.append_nil, List.drop_take, List.take_take,
    Nat.min_eq_left (by omega : n ≤ off - a)]

theorem readBytes_memcpyAt_after (dst src : List Nat) (off a n : Nat)
    (h : off + src.length ≤ a) (hoff : off ≤ dst.length) :
    readBytes (memcpyAt dst off src) a n = readBytes dst a n := by
  have htk : (dst.take off).length = off := by
    simp only [List.length_take]; omega
  have harith : off + src.length + (a - off - src.length) = a := by omega
  simp only [readBytes, memcpyAt, List.append_assoc]
  rw [List.drop_append_eq_append_drop,
    List.drop_of_length_le (by rw [htk]; omega : (dst.take off).length ≤ a),
    List.nil_append, htk, List.drop_append_eq_append_drop,
    List.drop_of_length_le (by omega : src.length ≤ a - off),
    List.nil_append, List.drop_drop, harith]

/-! ## Unfolding lemmas for the send / receive loops -/

theorem osal_queue_send_full_zero (q : QueueState) (item : List Nat)
    (waits : List WaitOutcome) (h : q.count = q.max_items) :
    osal_queue_send q item 0 waits = some ⟨.OSAL_QUEUE_FULL, q, false⟩ := by
  simp only [osal_queue_send]
  rw [osal_queue_send_loop.eq_def]
  simp [h]

theorem osal_queue_send_space (q : QueueState) (item : List Nat) (t : Nat)
    (waits : List WaitOutcome) (h : q.count ≠ q.max_items) :
    osal_queue_send q item t waits = some ⟨.OSAL_SUCCESS, sendSlot q item, true⟩ := by
  simp only [osal_queue_send]
  rw [osal_queue_send_loop.eq_def]
  simp [h]

theorem osal_queue_send_full_timedOut (q st : QueueState) (item : List Nat)
    (t : Nat) (rest : List WaitOutcome) (hfull : q.count = q.max_items)
    (ht : t ≠ 0) :
    osal_queue_send q item t (.timedOut st :: rest)
      = some ⟨.OSAL_QUEUE_TIMEOUT, st, false⟩ := by
  simp only [osal_queue_send]
  rw [osal_queue_send_loop.eq_def]
  simp [hfull, ht]

theorem osal_queue_send_full_waitError (q st : QueueState) (item : List Nat)
    (t : Nat) (rest : List WaitOutcome) (hfull : q.count = q.max_items)
    (ht : t ≠ 0) :
    osal_queue_send q item t (.waitError st :: rest)
      = some ⟨.OSAL_ERROR, st, false⟩ := by
  simp only [osal_queue_send]
  rw [osal_queue_send_loop.eq_def]
  simp [hfull, ht]

theorem osal_queue_send_full_woken (q st : QueueState) (item : List Nat)
    (t : Nat) (rest : List WaitOutcome) (hfull : q.count = q.max_items)
    (ht : t ≠ 0) :
    osal_queue_send q item t (.woken st :: rest)
      = osal_queue_send st item t rest := by
  simp only [osal_queue_send]
  rw [osal_queue_send_loop.eq_def]
  simp [hfull, ht]

theorem osal_queue_receive_empty_zero (q : QueueState)
    (waits : List WaitOutcome) (h : q.count = 0) :
    osal_queue_receive q 0 waits = some ⟨.OSAL_QUEUE_EMPTY, q, [], false⟩ := by
  simp only [osal_queue_receive]
  rw [osal_queue_receive_loop.eq_def]
  simp [h]

theorem osal_queue_receive_nonempty (q : QueueState) (t : Nat)
    (waits : List WaitOutcome) (h : q.count ≠ 0) :
    osal_queue_receive q t waits
      = some ⟨.OSAL_SUCCESS, recvSlot q, recvRead q, true⟩ := by
  simp only [osal_queue_receive]
  rw [osal_queue_receive_loop.eq_def]
  simp [h]

/-! ## Invariant preservation helpers -/

theorem QInv_sendSlot (q : QueueState) (item : List Nat) (hq : QInv q)
    (hcnt : q.count ≠ q.max_items) : QInv (sendSlot q item) := by
  obtain ⟨hc, hh, ht⟩ := hq
  have hpos : 0 < q.max_items := Nat.lt_of_le_of_lt (Nat.zero_le _) ht
  simp only [QInv, sendSlot]
  exact ⟨by omega, hh, Nat.mod_lt _ hpos⟩

theorem QInv_recvSlot (q : QueueState) (hq : QInv q) (_hcnt : q.count ≠ 0) :
    QInv (recvSlot q) := by
  obtain ⟨hc, hh, ht⟩ := hq
  have hpos : 0 < q.max_items := Nat.lt_of_le_of_lt (Nat.zero_le _) hh
  simp only [QInv, recvSlot]
  exact ⟨by omega, Nat.mod_lt _ hpos, ht⟩

theorem QInv_send_aux (waits : List WaitOutcome) :
    ∀ (q : QueueState) (item : List Nat) (t : Nat) (r : SendResult),
      QInv q → waitsInv waits → osal_queue_send q item t waits = some r →
      QInv r.state := by
  induction waits with
  | nil =>
    intro q item t r hq _ h
    by_cases hfull : q.count = q.max_items
    · by_cases ht : t = 0
      · subst ht
        rw [osal_queue_send_full_zero q item [] hfull] at h
        obtain rfl := Option.some.inj h
        exact hq
      · simp only [osal_queue_send] at h
        rw [osal_queue_send_loop.eq_def] at h
        simp [hfull, ht] at h
    · rw [osal_queue_send_space q item t [] hfull] at h
      obtain rfl := Option.some.inj h
      exact QInv_sendSlot q item hq hfull
  | cons w rest ih =>
    intro q item t r hq hw h
    by_cases hfull : q.count = q.max_items
    · by_cases ht : t = 0
      · subst ht
        rw [osal_queue_send_full_zero q item _ hfull] at h
        obtain rfl := Option.some.inj h
        exact hq
      · have hwhead : QInv w.state := hw w (List.mem_cons_self w rest)
        have hwrest : waitsInv rest := fun x hx => hw x (List.mem_cons_of_mem w hx)
        cases w with
        | timedOut st =>
          rw [osal_queue_send_full_timedOut q st item t rest hfull ht] at h
          obtain rfl := Option.some.inj h
          exact hwhead
        | waitError st =>
          rw [osal_queue_send_full_waitError q st item t rest hfull ht] at h
          obtain rfl := Option.some.inj h
          exact hwhead
        | woken st =>
          rw [osal_queue_send_full_woken q st item t rest hfull ht] at h
          exact ih st item t r hwhead hwrest h
    · rw [osal_queue_send_space q item t _ hfull] at h
      obtain rfl := Option.some.inj h
      exact QInv_sendSlot q item hq hfull

theorem osal_queue_receive_empty_timedOut (q st : QueueState) (t : Nat)
    (rest : List WaitOutcome) (hempty : q.count = 0) (ht : t ≠ 0) :
    osal_queue_receive q t (.timedOut st :: rest)
      = some ⟨.OSAL_QUEUE_TIMEOUT, st, [], false⟩ := by
  simp only [osal_queue_receive]
  rw [osal_queue_receive_loop.eq_def]
  simp [hempty, ht]

theorem osal_queue_receive_empty_waitError (q st : QueueState) (t : Nat)
    (rest : List WaitOutcome) (hempty : q.count = 0) (ht : t ≠ 0) :
    osal_queue_receive q t (.waitError st :: rest)
      = some ⟨.OSAL_ERROR, st, [], false⟩ := by
  simp only [osal_queue_receive]
  rw [osal_queue_receive_loop.eq_def]
  simp [hempty, ht]

theorem osal_queue_receive_empty_woken (q st : QueueState) (t : Nat)
    (rest : List WaitOutcome) (hempty : q.count = 0) (ht : t ≠ 0) :
    osal_queue_receive q t (.woken st :: rest) = osal_queue_receive st t rest := by
  simp only [osal_queue_receive]
  rw [osal_queue_receive_loop.eq_def]
  simp [hempty, ht]

theorem QInv_receive_aux (waits : List WaitOutcome) :
    ∀ (q : QueueState) (t : Nat) (r : RecvResult),
      QInv q → waitsInv waits → osal_queue_receive q t waits = some r →
      QInv r.state := by
  induction waits with
  | nil =>
    intro q t r hq _ h
    by_cases hempty : q.count = 0
    · by_cases ht : t = 0
      · subst ht
        rw [osal_queue_receive_empty_zero q [] hempty] at h
        obtain rfl := Option.some.inj h
        exact hq
      · simp only [osal_queue_receive] at h
        rw [osal_queue_receive_loop.eq_def] at h
        simp [hempty, ht] at h
    · rw [osal_queue_receive_nonempty q t [] hempty] at h
      obtain rfl := Option.some.inj h
      exact QInv_recvSlot q hq hempty
  | cons w rest ih =>
    intro q t r hq hw h
    by_cases hempty : q.count = 0
    · by_cases ht : t = 0
      · subst ht
        rw [osal_queue_receive_empty_zero q _ hempty] at h
        obtain rfl := Option.some.inj h
        exact hq
      · have hwhead : QInv w.state := hw w (List.mem_cons_self w rest)
        have hwrest : waitsInv rest := fun x hx => hw x (List.mem_cons_of_mem w hx)
        cases w with
        | timedOut st =>
          rw [osal_queue_receive_empty_timedOut q st t rest hempty ht] at h
          obtain rfl := Option.some.inj h
          exact hwhead
        | waitError st =>
          rw [osal_queue_receive_empty_waitError q st t rest hempty ht] at h
          obtain rfl := Option.some.inj h
          exact hwhead
        | woken st =>
          rw [osal_queue_receive_empty_woken q st t rest hempty ht] at h
          exact ih st t r hwhead hwrest h
    · rw [osal_queue_receive_nonempty q t _ hempty] at h
      obtain rfl := Option.some.inj h
      exact QInv_recvSlot q hq hempty

/-! ## Ring-buffer / list-abstraction lemmas -/

theorem tail_lt_of_wf (S C : Nat) (q : QueueState) (hwf : QueueWF S C q) :
    q.tail < C := by
  obtain ⟨_, _, hCpos, _, _, htail, _⟩ := hwf
  rw [htail]
  exact Nat.mod_lt _ hCpos

theorem QInv_of_wf (S C : Nat) (q : QueueState) (hwf : QueueWF S C q) :
    QInv q := by
  have htl := tail_lt_of_wf S C q hwf
  obtain ⟨_, hC, _, hcount, hhead, _, _⟩ := hwf
  subst hC
  exact ⟨hcount, hhead, htl⟩

theorem readBytes_memcpyAt_self_of_eq (dst src : List Nat) (off n : Nat)
    (hn : n = src.length) (h : off + src.length ≤ dst.length) :
    readBytes (memcpyAt dst off src) off n = src := by
  rw [hn]
  exact readBytes_memcpyAt_self dst src off h

theorem slotAt_sendSlot_other (S C : Nat) (q : QueueState) (item : List Nat)
    (hwf : QueueWF S C q) (j : Nat) (hne : j ≠ q.tail) :
    slotAt (sendSlot q item) j = slotAt q j := by
  have htl := tail_lt_of_wf S C q hwf
  obtain ⟨hS, hC, hCpos, hcount, hhead, htail, hbuf⟩ := hwf
  show readBytes (memcpyAt q.buffer (q.tail * q.item_size) (item.take q.item_size))
      (j * q.item_size) q.item_size = readBytes q.buffer (j * q.item_size) q.item_size
  have hofflen : q.tail * q.item_size ≤ q.buffer.length := by
    rw [hbuf, hS]
    exact Nat.mul_le_mul_right _ (le_of_lt htl)
  rcases Nat.lt_or_ge j q.tail with hlt | hge
  · apply readBytes_memcpyAt_before _ _ _ _ _ _ hofflen
    calc j * q.item_size + q.item_size = (j + 1) * q.item_size := by ring
      _ ≤ q.tail * q.item_size := Nat.mul_le_mul_right _ (by omega)
  · have hgt : q.tail < j := lt_of_le_of_ne hge (Ne.symm hne)
    apply readBytes_memcpyAt_after _ _ _ _ _ _ hofflen
    have hsrc : (item.take q.item_size).length ≤ q.item_size := by
      rw [List.length_take]
      exact Nat.min_le_left _ _
    calc q.tail * q.item_size + (item.take q.item_size).length
        ≤ q.tail * q.item_size + q.item_size := by omega
      _ = (q.tail + 1) * q.item_size := by ring
      _ ≤ j * q.item_size := Nat.mul_le_mul_right _ (by omega)

theorem slotAt_sendSlot_tail (S C : Nat) (q : QueueState) (item : List Nat)
    (hwf : QueueWF S C q) (hlen : item.length = S) :
    slotAt (sendSlot q item) q.tail = item := by
  have htl := tail_lt_of_wf S C q hwf
  obtain ⟨hS, hC, hCpos, hcount, hhead, htail, hbuf⟩ := hwf
  have htake : item.take q.item_size = item := by
    rw [hS, ← hlen]
    exact List.take_length item
  show readBytes (memcpyAt q.buffer (q.tail * q.item_size) (item.take q.item_size))
      (q.tail * q.item_size) q.item_size = item
  rw [htake]
  apply readBytes_memcpyAt_self_of_eq
  · rw [hS, hlen]
  · rw [hbuf, hS, ← hlen]
    calc q.tail * item.length + item.length = (q.tail + 1) * item.length := by ring
      _ ≤ C * item.length := Nat.mul_le_mul_right _ (by omega)

theorem QueueWF_sendSlot (S C : Nat) (q : QueueState) (item : List Nat)
    (hwf : QueueWF S C q) (hcnt : q.count < C) :
    QueueWF S C (sendSlot q item) := by
  have htl := tail_lt_of_wf S C q hwf
  obtain ⟨hS, hC, hCpos, hcount, hhead, htail, hbuf⟩ := hwf
  refine ⟨hS, hC, hCpos, ?_, hhead, ?_, ?_⟩
  · show q.count + 1 ≤ C
    omega
  · show (q.tail + 1) % q.max_items = (q.head + (q.count + 1)) % C
    rw [hC, htail, Nat.mod_add_mod]
    all_goals rw [Nat.add_assoc]
  · show (memcpyAt q.buffer (q.tail * q.item_size) (item.take q.item_size)).length = C * S
    have hsrc : (item.take q.item_size).length ≤ q.item_size := by
      rw [List.length_take]
      exact Nat.min_le_left _ _
    have hbound : q.tail * q.item_size + (item.take q.item_size).length ≤ q.buffer.length := by
      calc q.tail * q.item_size + (item.take q.item_size).length
          ≤ q.tail * q.item_size + q.item_size := by omega
        _ = (q.tail + 1) * q.item_size := by ring
        _ ≤ C * q.item_size := Nat.mul_le_mul_right _ (by omega)
        _ = q.buffer.length := by rw [hbuf, hS]
    rw [length_memcpyAt _ _ _ hbound, hbuf]

theorem QueueWF_recvSlot (S C : Nat) (q : QueueState)
    (hwf : QueueWF S C q) (hcnt : 0 < q.count) :
    QueueWF S C (recvSlot q) := by
  obtain ⟨hS, hC, hCpos, hcount, hhead, htail, hbuf⟩ := hwf
  refine ⟨hS, hC, hCpos, ?_, ?_, ?_, hbuf⟩
  · show q.count - 1 ≤ C
    omega
  · show (q.head + 1) % q.max_items < C
    rw [hC]
    exact Nat.mod_lt _ hCpos
  · show q.tail = ((q.head + 1) % q.max_items + (q.count - 1)) % C
    rw [hC, htail, Nat.mod_add_mod]
    congr 1
    omega

theorem absQ_length (q : QueueState) : (absQ q).length = q.count := by
  simp [absQ]

theorem absQ_sendSlot (S C : Nat) (q : QueueState) (item : List Nat)
    (hwf : QueueWF S C q) (hcnt : q.count < C) (hlen : item.length = S) :
    absQ (sendSlot q item) = absQ q ++ [item] := by
  have hwf0 := hwf
  have htl := tail_lt_of_wf S C q hwf
  obtain ⟨hS, hC, hCpos, hcount, hhead, htail, hbuf⟩ := hwf
  have h1 : (sendSlot q item).count = q.count + 1 := rfl
  have h2 : (sendSlot q item).head = q.head := rfl
  have h3 : (sendSlot q item).max_items = q.max_items := rfl
  unfold absQ
  rw [h1, h2, h3, List.range_succ, List.map_append]
  congr 1
  · apply List.map_congr_left
    intro i hi
    rw [List.mem_range] at hi
    have hne : (q.head + i) % q.max_items ≠ q.tail := by
      rw [htail, hC]
      intro heq
      have hmeq : i % C = q.count % C := Nat.ModEq.add_left_cancel' q.head heq
      rw [Nat.mod_eq_of_lt (by omega : i < C),
        Nat.mod_eq_of_lt (by omega : q.count < C)] at hmeq
      omega
    exact slotAt_sendSlot_other S C q item hwf0 ((q.head + i) % q.max_items) hne
  · show [slotAt (sendSlot q item) ((q.head + q.count) % q.max_items)] = [item]
    rw [hC, ← htail, slotAt_sendSlot_tail S C q item hwf0 hlen]

theorem absQ_recvSlot (S C : Nat) (q : QueueState)
    (hwf : QueueWF S C q) (hcnt : 0 < q.count) :
    recvRead q :: absQ (recvSlot q) = absQ q := by
  obtain ⟨hS, hC, hCpos, hcount, hhead, htail, hbuf⟩ := hwf
  obtain ⟨m, hm⟩ : ∃ m, q.count = m + 1 := ⟨q.count - 1, by omega⟩
  have hcnt' : (recvSlot q).count = m := by
    simp only [recvSlot]
    omega
  have hhd : (recvSlot q).head = (q.head + 1) % q.max_items := rfl
  have hmx : (recvSlot q).max_items = q.max_items := rfl
  have hslot : ∀ j, slotAt (recvSlot q) j = slotAt q j := fun j => rfl
  unfold absQ
  rw [hcnt', hm, List.range_succ_eq_map, List.map_cons, List.map_map]
  congr 1
  · rw [hC, Nat.add_zero, Nat.mod_eq_of_lt hhead]
    rfl
  · apply List.map_congr_left
    intro i hi
    simp only [Function.comp]
    rw [hslot, hhd, hmx, Nat.mod_add_mod]
    congr 2
    omega

/-! ## The create path establishes well-formedness -/

theorem queue_create_wf (queueIdNull : Bool) (nameLen : Option Nat)
    (maxItems itemSize : Nat) (env : QueueAllocEnv) (q : QueueState)
    (h : (osal_queue_create queueIdNull nameLen maxItems itemSize env).handle = some q) :
    QueueWF itemSize maxItems q ∧ absQ q = [] := by
  unfold osal_queue_create at h
  by_cases c1 : queueIdNull = true
  · rw [if_pos c1] at h
    exact Option.noConfusion h
  rw [if_neg c1] at h
  by_cases c2 : nameTooLong nameLen = true
  · rw [if_pos c2] at h
    exact Option.noConfusion h
  rw [if_neg c2] at h
  by_cases c3 : ¬ 0 < maxItems
  · rw [if_pos c3] at h
    exact Option.noConfusion h
  rw [if_neg c3] at h
  by_cases c4 : ¬ 0 < itemSize
  · rw [if_pos c4] at h
    exact Option.noConfusion h
  rw [if_neg c4] at h
  by_cases c5 : SIZE_MAX_C / itemSize < maxItems
  · rw [if_pos c5] at h
    exact Option.noConfusion h
  rw [if_neg c5] at h
  by_cases c6 : ¬ env.ctrlOk = true
  · rw [if_pos c6] at h
    exact Option.noConfusion h
  rw [if_neg c6] at h
  by_cases c7 : ¬ env.bufOk = true
  · rw [if_pos c7] at h
    exact Option.noConfusion h
  rw [if_neg c7] at h
  by_cases c8 : ¬ env.mutexOk = true
  · rw [if_pos c8] at h
    exact Option.noConfusion h
  rw [if_neg c8] at h
  by_cases c9 : ¬ env.notEmptyOk = true
  · rw [if_pos c9] at h
    exact Option.noConfusion h
  rw [if_neg c9] at h
  by_cases c10 : ¬ env.notFullOk = true
  · rw [if_pos c10] at h
    exact Option.noConfusion h
  rw [if_neg c10] at h
  obtain rfl := Option.some.inj h
  refine ⟨⟨rfl, rfl, by omega, ?_, ?_, ?_, ?_⟩, ?_⟩
  · show (0 : Nat) ≤ maxItems
    omega
  · show (0 : Nat) < maxItems
    omega
  · show (0 : Nat) = (0 + 0) % maxItems
    simp
  · show ((env.bufBytes ++ List.replicate (maxItems * itemSize) 0).take
        (maxItems * itemSize)).length = maxItems * itemSize
    simp only [List.length_take, List.length_append, List.length_replicate]
    omega
  · simp [absQ]

/-! ## The FIFO refinement of runOps to list semantics -/

theorem runOps_spec (S C : Nat) (ops : List QOp) :
    ∀ (q qf : QueueState) (outs : List (List Nat)),
      QueueWF S C q → sendLens S ops →
      runOps q ops = some (qf, outs) →
      QueueWF S C qf ∧ outs ++ absQ qf = absQ q ++ sentOf ops := by
  induction ops with
  | nil =>
    intro q qf outs hwf _ hrun
    simp only [runOps, Option.some.injEq, Prod.mk.injEq] at hrun
    obtain ⟨rfl, rfl⟩ := hrun
    simp [sentOf]
    exact hwf
  | cons op ops ih =>
    cases op with
    | send it =>
      intro q qf outs hwf hlens hrun
      have hlit : it.length = S := hlens it (List.mem_cons_self _ _)
      have hlens' : sendLens S ops := fun x hx => hlens x (List.mem_cons_of_mem _ hx)
      by_cases hfull : q.count = q.max_items
      · rw [runOps, osal_queue_send_full_zero q it [] hfull] at hrun
        simp at hrun
      · rw [runOps, osal_queue_send_space q it 0 [] hfull] at hrun
        simp only [if_pos rfl] at hrun
        have hcnt : q.count < C := by
          obtain ⟨_, hC, _, hcount, _, _, _⟩ := hwf
          omega
        have hwf' := QueueWF_sendSlot S C q it hwf hcnt
        obtain ⟨hwff, heq⟩ := ih _ _ _ hwf' hlens' hrun
        refine ⟨hwff, ?_⟩
        rw [heq, absQ_sendSlot S C q it hwf hcnt hlit]
        simp [sentOf]
    | recv =>
      intro q qf outs hwf hlens hrun
      have hlens' : sendLens S ops := fun x hx => hlens x (List.mem_cons_of_mem _ hx)
      by_cases hempty : q.count = 0
      · rw [runOps, osal_queue_receive_empty_zero q [] hempty] at hrun
        simp at hrun
      · rw [runOps, osal_queue_receive_nonempty q 0 [] hempty] at hrun
        simp only [if_pos rfl] at hrun
        match hres : runOps (recvSlot q) ops with
        | none => rw [hres] at hrun; simp at hrun
        | some (qf2, outs2) =>
          rw [hres] at hrun
          simp only [Option.some.injEq, Prod.mk.injEq] at hrun
          obtain ⟨rfl, rfl⟩ := hrun
          have hwf' := QueueWF_recvSlot S C q hwf (by omega)
          obtain ⟨hwff, heq⟩ := ih _ _ _ hwf' hlens' hres
          refine ⟨hwff, ?_⟩
          rw [List.cons_append, heq, ← absQ_recvSlot S C q hwf (by omega)]
          simp [sentOf]

/-! ## Claim theorems -/

/-- C8: `osal_get_status_name` is total over the status taxonomy: every
variant of `osal_status_t` maps to a non-empty stable name distinct from
"unknown error" (and from the reserved label), and every reserved integer
code (-21 through -26, and -39) maps to "OSAL_ERR_RESERVED". -/
theorem c8_status_name_total :
    (∀ s : osal_status,
      0 < (osal_get_status_name (statusCode s)).length ∧
      osal_get_status_name (statusCode s) ≠ "unknown error" ∧
      osal_get_status_name (statusCode s) ≠ "OSAL_ERR_RESERVED") ∧
    (∀ c : Int, ((-26 ≤ c ∧ c ≤ -21) ∨ c = -39) →
      osal_get_status_name c = "OSAL_ERR_RESERVED") := by
  constructor
  · intro s
    cases s <;> exact ⟨by decide, by decide, by decide⟩
  · intro c hc
    rcases hc with ⟨h1, h2⟩ | rfl
    · interval_cases c <;> decide
    · decide

/-- Witness for C8 at the concrete reserved code -21 and the variant
`OSAL_SUCCESS`. -/
theorem c8_status_name_total_witness :
    osal_get_status_name (-21) = "OSAL_ERR_RESERVED" ∧
    osal_get_status_name (statusCode .OSAL_SUCCESS) ≠ "unknown error" :=
  ⟨c8_status_name_total.2 (-21) (Or.inl ⟨by decide, by decide⟩),
   (c8_status_name_total.1 .OSAL_SUCCESS).2.1⟩

/-- C9: on the POSIX backend, `osal_queue_get_count` and
`osal_count_sem_get_count` on a NULL handle return the status code
`OSAL_INVALID_POINTER` (-2) converted to their uint32_t return type,
namely 4294967294 — which is not 0, so it is indistinguishable from an
enormous count. -/
theorem c9_get_count_null_returns_huge :
    (∀ lockOk : Bool, osal_queue_get_count none lockOk = 4294967294) ∧
    (∀ getOk : Bool, osal_count_sem_get_count none getOk = 4294967294) ∧
    uint32_of_int (statusCode .OSAL_INVALID_POINTER) = 4294967294 ∧
    (4294967294 : Nat) ≠ 0 :=
  ⟨fun _ => rfl, fun _ => rfl, rfl, by decide⟩

/-- C3 counterexample: on the ESP backend, `osal_bin_sem_give` on an
already-Full binary semaphore does not return `OSAL_SUCCESS`: FreeRTOS
`xSemaphoreGive` fails on a full binary semaphore and the wrapper maps
that to `OSAL_SEM_FAILURE`. -/
theorem c3_bin_sem_give_full_counterexample :
    (osal_bin_sem_give .full).1 = .OSAL_SEM_FAILURE ∧
    (osal_bin_sem_give .full).1 ≠ .OSAL_SUCCESS ∧
    (osal_bin_sem_give .full).2 = .full := by
  refine ⟨rfl, ?_, rfl⟩
  decide

/-- C3 amended: `osal_bin_sem_give` on an already-Full semaphore leaves it
Full but surfaces the failed FreeRTOS give as `OSAL_SEM_FAILURE` (not
`OSAL_SUCCESS`); on an Empty semaphore it sets Full and returns
`OSAL_SUCCESS`. -/
theorem c3_bin_sem_give_full :
    osal_bin_sem_give .full = (.OSAL_SEM_FAILURE, .full) ∧
    osal_bin_sem_give .empty = (.OSAL_SUCCESS, .full) :=
  ⟨rfl, rfl⟩

/-- C2 counterexample: `osal_timer_start` on an active timer (period 100,
deadline 500) signals the worker; the worker wakes with a 0 return at
now = 450 and recomputes its deadline to 550 ≠ 500 — the expiry deadline
computed before the start call is NOT preserved. -/
theorem c2_timer_start_counterexample :
    (osal_timer_start ⟨100, false, true, false, 500⟩).2 = true ∧
    (osal_timer_wake_step (osal_timer_start ⟨100, false, true, false, 500⟩).1
      .signaled 450 true).st.deadline = 550 ∧
    (osal_timer_wake_step (osal_timer_start ⟨100, false, true, false, 500⟩).1
      .signaled 450 true).st.deadline ≠ (500 : Nat) := by
  refine ⟨rfl, rfl, ?_⟩
  decide

/-- C2 amended: on the POSIX backend, `osal_timer_start` on an
already-active timer is NOT a deadline-preserving no-op: its body is
identical to `osal_timer_reset` (set `active`, signal the cv), the state
write is invisible (`active` was already true), but the signalled worker
recomputes its deadline to now + period, restarting the running
interval. -/
theorem c2_timer_start_active_restarts_interval (t : TimerState) (now : Nat)
    (hactive : t.active = true) (hstop : t.stop_requested = false) :
    osal_timer_start t = osal_timer_reset t ∧
    (osal_timer_start t).1 = t ∧
    (osal_timer_start t).2 = true ∧
    (osal_timer_wake_step (osal_timer_start t).1 .signaled now true).st.deadline
      = now + t.period_ms := by
  refine ⟨rfl, ?_, rfl, ?_⟩
  · obtain ⟨p, ar, a, st, d⟩ := t
    simp only [osal_timer_start]
    rw [← hactive]
  · simp only [osal_timer_start, osal_timer_wake_step, hstop]
    simp [hactive]

/-- Witness for C2's amended theorem at a concrete active timer. -/
theorem c2_timer_start_active_restarts_interval_witness :
    osal_timer_start ⟨100, false, true, false, 500⟩
        = osal_timer_reset ⟨100, false, true, false, 500⟩ ∧
    (osal_timer_start ⟨100, false, true, false, 500⟩).1
        = ⟨100, false, true, false, 500⟩ ∧
    (osal_timer_start ⟨100, false, true, false, 500⟩).2 = true ∧
    (osal_timer_wake_step (osal_timer_start ⟨100, false, true, false, 500⟩).1
      .signaled 450 true).st.deadline = 450 + 100 :=
  c2_timer_start_active_restarts_interval ⟨100, false, true, false, 500⟩ 450 rfl rfl

/-- C6: when the worker's timed wait expires (ETIMEDOUT) on an active,
not-stop-requested timer: with `auto_reload` false the callback fires, the
timer is marked dormant, the inner loop is exited (so it fires exactly once
per activation) and `osal_timer_is_active` reports false until a subsequent
start/reset re-activates it; with `auto_reload` true the callback fires and
the timer stays active with new deadline now + period. -/
theorem c6_timer_expiry_oneshot_vs_autoreload (t : TimerState) (now : Nat)
    (hactive : t.active = true) (_hstop : t.stop_requested = false) :
    (t.auto_reload = false →
      (osal_timer_wake_step t .timedOut now true).firedCb = true ∧
      (osal_timer_wake_step t .timedOut now true).st.active = false ∧
      (osal_timer_wake_step t .timedOut now true).exitInner = true ∧
      osal_timer_is_active (some (osal_timer_wake_step t .timedOut now true).st) = false ∧
      (osal_timer_start (osal_timer_wake_step t .timedOut now true).st).1.active = true ∧
      (osal_timer_reset (osal_timer_wake_step t .timedOut now true).st).1.active = true) ∧
    (t.auto_reload = true →
      (osal_timer_wake_step t .timedOut now true).firedCb = true ∧
      (osal_timer_wake_step t .timedOut now true).st.active = true ∧
      (osal_timer_wake_step t .timedOut now true).st.deadline = now + t.period_ms) := by
  constructor
  · intro har
    simp [osal_timer_wake_step, osal_timer_is_active, osal_timer_start,
      osal_timer_reset, har]
  · intro har
    simp [osal_timer_wake_step, har, hactive]

/-- Witness for C6 at a concrete one-shot timer and a concrete auto-reload
timer. -/
theorem c6_timer_expiry_witness :
    ((⟨200, false, true, false, 200⟩ : TimerState).auto_reload = false →
      (osal_timer_wake_step ⟨200, false, true, false, 200⟩ .timedOut 200 true).firedCb = true ∧
      (osal_timer_wake_step ⟨200, false, true, false, 200⟩ .timedOut 200 true).st.active = false ∧
      (osal_timer_wake_step ⟨200, false, true, false, 200⟩ .timedOut 200 true).exitInner = true ∧
      osal_timer_is_active
        (some (osal_timer_wake_step ⟨200, false, true, false, 200⟩ .timedOut 200 true).st) = false ∧
      (osal_timer_start
        (osal_timer_wake_step ⟨200, false, true, false, 200⟩ .timedOut 200 true).st).1.active = true ∧
      (osal_timer_reset
        (osal_timer_wake_step ⟨200, false, true, false, 200⟩ .timedOut 200 true).st).1.active = true) ∧
    ((⟨200, false, true, false, 200⟩ : TimerState).auto_reload = true →
      (osal_timer_wake_step ⟨200, false, true, false, 200⟩ .timedOut 200 true).firedCb = true ∧
      (osal_timer_wake_step ⟨200, false, true, false, 200⟩ .timedOut 200 true).st.active = true ∧
      (osal_timer_wake_step ⟨200, false, true, false, 200⟩ .timedOut 200 true).st.deadline
        = 200 + (⟨200, false, true, false, 200⟩ : TimerState).period_ms) :=
  c6_timer_expiry_oneshot_vs_autoreload ⟨200, false, true, false, 200⟩ 200 rfl rfl

/-- C5: the queue state predicate `count ≤ capacity ∧ head < capacity ∧
tail < capacity` holds for the queue a successful create writes to the
out-parameter, and is preserved by `osal_queue_send`, `osal_queue_receive`
(given that the states other threads hand back at wake-up satisfy it) and
by `osal_queue_get_count`, which reads `count` without modifying the
state. -/
theorem c5_queue_invariant :
    (∀ (queueIdNull : Bool) (nameLen : Option Nat) (maxItems itemSize : Nat)
        (env : QueueAllocEnv) (q : QueueState),
        (osal_queue_create queueIdNull nameLen maxItems itemSize env).handle = some q →
        QInv q) ∧
    (∀ (q : QueueState) (item : List Nat) (t : Nat) (waits : List WaitOutcome)
        (r : SendResult), QInv q → waitsInv waits →
        osal_queue_send q item t waits = some r → QInv r.state) ∧
    (∀ (q : QueueState) (t : Nat) (waits : List WaitOutcome) (r : RecvResult),
        QInv q → waitsInv waits →
        osal_queue_receive q t waits = some r → QInv r.state) ∧
    (∀ (q : QueueState) (lockOk : Bool), QInv q →
        osal_queue_get_count (some q) lockOk = (if lockOk then q.count else 0) ∧
        QInv q) := by
  refine ⟨?_, ?_, ?_, ?_⟩
  · intro idn nl mi its env q h
    exact QInv_of_wf its mi q (queue_create_wf idn nl mi its env q h).1
  · intro q item t waits r hq hw h
    exact QInv_send_aux waits q item t r hq hw h
  · intro q t waits r hq hw h
    exact QInv_receive_aux waits q t r hq hw h
  · intro q lockOk hq
    exact ⟨rfl, hq⟩

/-- Witness for C5: a concrete send on a concrete queue satisfying the
invariant yields a state satisfying the invariant. -/
theorem c5_queue_invariant_witness :
    QInv (⟨.OSAL_SUCCESS, ⟨1, 1, 0, 0, 1, [7]⟩, true⟩ : SendResult).state :=
  c5_queue_invariant.2.1 ⟨1, 1, 0, 0, 0, [0]⟩ [7] 0 []
    ⟨.OSAL_SUCCESS, ⟨1, 1, 0, 0, 1, [7]⟩, true⟩ ⟨by decide, by decide, by decide⟩
    (fun w hw => absurd hw (List.not_mem_nil w)) (by decide)

/-- C4: starting from a queue created with capacity `C` and item size `S`,
any sequence of successful poll-mode sends and receives returns items in
exactly the sent (FIFO) order — the receive outputs are a prefix of the
sent items — and once the number of receives equals the number of sends,
the outputs are exactly the sent items and the final `count` is 0. -/
theorem c4_queue_fifo (S C : Nat) (nameLen : Option Nat) (env : QueueAllocEnv)
    (q0 qf : QueueState) (ops : List QOp) (outs : List (List Nat))
    (hcreate : (osal_queue_create false nameLen C S env).handle = some q0)
    (hlens : sendLens S ops)
    (hrun : runOps q0 ops = some (qf, outs)) :
    outs = (sentOf ops).take outs.length ∧
    (outs.length = (sentOf ops).length → outs = sentOf ops ∧ qf.count = 0) := by
  obtain ⟨hwf, habs⟩ := queue_create_wf false nameLen C S env q0 hcreate
  obtain ⟨hwff, heq⟩ := runOps_spec S C ops q0 qf outs hwf hlens hrun
  rw [habs, List.nil_append] at heq
  constructor
  · calc outs = (outs ++ absQ qf).take outs.length := (List.take_left' rfl).symm
      _ = (sentOf ops).take outs.length := by rw [heq]
  · intro hlen2
    have hlens2 := congrArg List.length heq
    rw [List.length_append] at hlens2
    have hnil : absQ qf = [] := List.length_eq_zero.mp (by omega)
    rw [hnil, List.append_nil] at heq
    refine ⟨heq, ?_⟩
    rw [← absQ_length qf, hnil]
    rfl

/-- Witness for C4: capacity 2, item size 1, sends of [5] and [6] followed
by two receives return [5] then [6] and leave count 0. -/
theorem c4_queue_fifo_witness :
    [[5], [6]] = (sentOf [QOp.send [5], QOp.send [6], QOp.recv, QOp.recv]).take 2 ∧
    (([[5], [6]] : List (List Nat)).length
        = (sentOf [QOp.send [5], QOp.send [6], QOp.recv, QOp.recv]).length →
      [[5], [6]] = sentOf [QOp.send [5], QOp.send [6], QOp.recv, QOp.recv] ∧
      (⟨1, 2, 0, 0, 0, [5, 6]⟩ : QueueState).count = 0) :=
  c4_queue_fifo 1 2 none ⟨true, true, true, true, true, []⟩
    ⟨1, 2, 0, 0, 0, [0, 0]⟩ ⟨1, 2, 0, 0, 0, [5, 6]⟩
    [QOp.send [5], QOp.send [6], QOp.recv, QOp.recv] [[5], [6]]
    (by decide)
    (by
      intro it hmem
      simp only [List.mem_cons, List.not_mem_nil, or_false] at hmem
      rcases hmem with h | h | h | h <;> first
        | (obtain rfl := QOp.send.inj h.symm; rfl)
        | exact QOp.noConfusion h)
    (by decide)

/-- C1: `osal_queue_send` obeys the three timeout regimes.  On a full queue
with timeout 0 it returns `OSAL_QUEUE_FULL` with the state unchanged and
nothing signalled; with a nonzero timeout, if the queue remains full across
every wake until a wait returns ETIMEDOUT, it returns `OSAL_QUEUE_TIMEOUT`;
and once the loop observes free space it copies exactly `item_size` bytes
of the item into the slot at `tail`, advances `tail` modulo the capacity,
increments `count`, signals `not_empty`, and returns `OSAL_SUCCESS`. -/
theorem c1_queue_send_timeout_regimes (S C : Nat) (q : QueueState)
    (item : List Nat) (waits : List WaitOutcome) (t : Nat)
    (hlen : item.length = S) :
    (q.count = q.max_items →
      osal_queue_send q item 0 waits = some ⟨.OSAL_QUEUE_FULL, q, false⟩) ∧
    (∀ qf, 0 < t → t < OSAL_MAX_DELAY → ExpiryTrace q waits qf →
      osal_queue_send q item t waits = some ⟨.OSAL_QUEUE_TIMEOUT, qf, false⟩) ∧
    (∀ q2, 0 < t → SpaceTrace q waits q2 → QueueWF S C q2 →
      osal_queue_send q item t waits = some ⟨.OSAL_SUCCESS, sendSlot q2 item, true⟩ ∧
      slotAt (sendSlot q2 item) q2.tail = item ∧
      (sendSlot q2 item).tail = (q2.tail + 1) % C ∧
      (sendSlot q2 item).count = q2.count + 1) := by
  refine ⟨?_, ?_, ?_⟩
  · intro hfull
    exact osal_queue_send_full_zero q item waits hfull
  · intro qf ht _hmax htr
    induction htr with
    | expire q0 st rest hfull =>
      exact osal_queue_send_full_timedOut q0 st item t rest hfull (by omega)
    | step q0 st qf0 rest hfull hstfull htr ih =>
      rw [osal_queue_send_full_woken q0 st item t rest hfull (by omega)]
      exact ih
  · intro q2 ht htr hwf2
    refine ⟨?_, slotAt_sendSlot_tail S C q2 item hwf2 hlen, ?_, rfl⟩
    · induction htr with
      | here q0 waits0 hspace =>
        exact osal_queue_send_space q0 item t waits0 hspace
      | step q0 st qf0 rest hfull htr ih =>
        rw [osal_queue_send_full_woken q0 st item t rest hfull (by omega)]
        exact ih hwf2
    · obtain ⟨_, hC2, _, _, _, _, _⟩ := hwf2
      show (q2.tail + 1) % q2.max_items = (q2.tail + 1) % C
      rw [hC2]

/-- Witness for C1 on a concrete full queue of capacity 1: the poll regime
returns `OSAL_QUEUE_FULL` and the expiring timed regime returns
`OSAL_QUEUE_TIMEOUT`. -/
theorem c1_queue_send_timeout_regimes_witness :
    osal_queue_send ⟨1, 1, 0, 0, 1, [7]⟩ [9] 0 []
        = some ⟨.OSAL_QUEUE_FULL, ⟨1, 1, 0, 0, 1, [7]⟩, false⟩ ∧
    osal_queue_send ⟨1, 1, 0, 0, 1, [7]⟩ [9] 5 [.timedOut ⟨1, 1, 0, 0, 1, [7]⟩]
        = some ⟨.OSAL_QUEUE_TIMEOUT, ⟨1, 1, 0, 0, 1, [7]⟩, false⟩ :=
  ⟨(c1_queue_send_timeout_regimes 1 1 ⟨1, 1, 0, 0, 1, [7]⟩ [9] [] 5 rfl).1 rfl,
   (c1_queue_send_timeout_regimes 1 1 ⟨1, 1, 0, 0, 1, [7]⟩ [9]
      [.timedOut ⟨1, 1, 0, 0, 1, [7]⟩] 5 rfl).2.1 ⟨1, 1, 0, 0, 1, [7]⟩
      (by decide) (by decide)
      (ExpiryTrace.expire ⟨1, 1, 0, 0, 1, [7]⟩ ⟨1, 1, 0, 0, 1, [7]⟩ [] rfl)⟩

/-- C7: `osal_queue_create` (with a valid out-pointer and no name) returns
`OSAL_QUEUE_INVALID_SIZE` exactly when the capacity is 0, the item size is
0, or `capacity * item_size` overflows size_t; for validated inputs whose
allocations succeed it returns `OSAL_SUCCESS` and the created ring buffer
has exactly `capacity * item_size` bytes. -/
theorem c7_queue_create_validation (maxItems itemSize : Nat) (env : QueueAllocEnv) :
    ((osal_queue_create false none maxItems itemSize env).status = .OSAL_QUEUE_INVALID_SIZE
      ↔ (maxItems = 0 ∨ itemSize = 0 ∨ SIZE_MAX_C < maxItems * itemSize)) ∧
    (0 < maxItems → 0 < itemSize → maxItems * itemSize ≤ SIZE_MAX_C →
      env.ctrlOk = true → env.bufOk = true → env.mutexOk = true →
      env.notEmptyOk = true → env.notFullOk = true →
      (osal_queue_create false none maxItems itemSize env).status = .OSAL_SUCCESS ∧
      ∃ q, (osal_queue_create false none maxItems itemSize env).handle = some q ∧
        q.buffer.length = maxItems * itemSize) := by
  unfold osal_queue_create
  rw [if_neg (by decide : ¬ (false = true))]
  rw [if_neg (by decide : ¬ (nameTooLong none = true))]
  by_cases c3 : ¬ 0 < maxItems
  · rw [if_pos c3]
    exact ⟨⟨fun _ => Or.inl (by omega), fun _ => rfl⟩, fun h1 => absurd h1 c3⟩
  rw [if_neg c3]
  by_cases c4 : ¬ 0 < itemSize
  · rw [if_pos c4]
    exact ⟨⟨fun _ => Or.inr (Or.inl (by omega)), fun _ => rfl⟩,
      fun _ h2 => absurd h2 c4⟩
  rw [if_neg c4]
  have hdiv : SIZE_MAX_C / itemSize < maxItems ↔ SIZE_MAX_C < maxItems * itemSize :=
    Nat.div_lt_iff_lt_mul (by omega)
  by_cases c5 : SIZE_MAX_C / itemSize < maxItems
  · rw [if_pos c5]
    refine ⟨⟨fun _ => Or.inr (Or.inr (hdiv.mp c5)), fun _ => rfl⟩, ?_⟩
    intro _ _ h3 _ _ _ _ _
    exact absurd (hdiv.mp c5) (by omega)
  rw [if_neg c5]
  have hrhs : ¬ (maxItems = 0 ∨ itemSize = 0 ∨ SIZE_MAX_C < maxItems * itemSize) := by
    push_neg
    refine ⟨by omega, by omega, ?_⟩
    have := mt hdiv.mpr c5
    omega
  by_cases c6 : ¬ env.ctrlOk = true
  · rw [if_pos c6]
    exact ⟨⟨fun h => osal_status.noConfusion h, fun hr => absurd hr hrhs⟩,
      fun _ _ _ h4 => absurd h4 c6⟩
  rw [if_neg c6]
  by_cases c7 : ¬ env.bufOk = true
  · rw [if_pos c7]
    exact ⟨⟨fun h => osal_status.noConfusion h, fun hr => absurd hr hrhs⟩,
      fun _ _ _ _ h5 => absurd h5 c7⟩
  rw [if_neg c7]
  by_cases c8 : ¬ env.mutexOk = true
  · rw [if_pos c8]
    exact ⟨⟨fun h => osal_status.noConfusion h, fun hr => absurd hr hrhs⟩,
      fun _ _ _ _ _ h6 => absurd h6 c8⟩
  rw [if_neg c8]
  by_cases c9 : ¬ env.notEmptyOk = true
  · rw [if_pos c9]
    exact ⟨⟨fun h => osal_status.noConfusion h, fun hr => absurd hr hrhs⟩,
      fun _ _ _ _ _ _ h7 => absurd h7 c9⟩
  rw [if_neg c9]
  by_cases c10 : ¬ env.notFullOk = true
  · rw [if_pos c10]
    exact ⟨⟨fun h => osal_status.noConfusion h, fun hr => absurd hr hrhs⟩,
      fun _ _ _ _ _ _ _ h8 => absurd h8 c10⟩
  rw [if_neg c10]
  refine ⟨⟨fun h => osal_status.noConfusion h, fun hr => absurd hr hrhs⟩, ?_⟩
  intro _ _ _ _ _ _ _ _
  refine ⟨rfl, _, rfl, ?_⟩
  simp only [List.length_take, List.length_append, List.length_replicate]
  omega

/-- Witness for C7: capacity 0 yields `OSAL_QUEUE_INVALID_SIZE`; a
validated create (capacity 2, item size 4, all allocations succeeding)
yields `OSAL_SUCCESS`. -/
theorem c7_queue_create_validation_witness :
    (osal_queue_create false none 0 4 ⟨true, true, true, true, true, []⟩).status
        = .OSAL_QUEUE_INVALID_SIZE ∧
    (osal_queue_create false none 2 4 ⟨true, true, true, true, true, []⟩).status
        = .OSAL_SUCCESS :=
  ⟨(c7_queue_create_validation 0 4 ⟨true, true, true, true, true, []⟩).1.mpr
      (Or.inl rfl),
   ((c7_queue_create_validation 2 4 ⟨true, true, true, true, true, []⟩).2
      (by decide) (by decide) (by decide) rfl rfl rfl rfl rfl).1⟩

/-- C10: each POSIX create operation (queue, counting semaphore, mutex,
timer) writes its out-parameter handle iff it returns `OSAL_SUCCESS`, and
on any non-Success return every resource allocated during the call has
been released again (no live allocations remain). -/
theorem c10_create_atomicity :
    (∀ (queueIdNull : Bool) (nameLen : Option Nat) (maxItems itemSize : Nat)
        (env : QueueAllocEnv),
      ((osal_queue_create queueIdNull nameLen maxItems itemSize env).status
          = .OSAL_SUCCESS
        ↔ (osal_queue_create queueIdNull nameLen maxItems itemSize env).handle.isSome
          = true) ∧
      ((osal_queue_create queueIdNull nameLen maxItems itemSize env).status
          ≠ .OSAL_SUCCESS →
        liveRes (osal_queue_create queueIdNull nameLen maxItems itemSize env).events
          = [])) ∧
    (∀ (semIdNull : Bool) (nameLen : Option Nat) (ini maxv : Nat)
        (ctrlOk semInitOk : Bool),
      ((osal_count_sem_create semIdNull nameLen ini maxv ctrlOk semInitOk).status
          = .OSAL_SUCCESS
        ↔ (osal_count_sem_create semIdNull nameLen ini maxv ctrlOk semInitOk).handle.isSome
          = true) ∧
      ((osal_count_sem_create semIdNull nameLen ini maxv ctrlOk semInitOk).status
          ≠ .OSAL_SUCCESS →
        liveRes (osal_count_sem_create semIdNull nameLen ini maxv ctrlOk semInitOk).events
          = [])) ∧
    (∀ (mutexIdNull : Bool) (nameLen : Option Nat) (ctrlOk mtxOk : Bool),
      ((osal_mutex_create mutexIdNull nameLen ctrlOk mtxOk).status = .OSAL_SUCCESS
        ↔ (osal_mutex_create mutexIdNull nameLen ctrlOk mtxOk).handle.isSome = true) ∧
      ((osal_mutex_create mutexIdNull nameLen ctrlOk mtxOk).status ≠ .OSAL_SUCCESS →
        liveRes (osal_mutex_create mutexIdNull nameLen ctrlOk mtxOk).events = [])) ∧
    (∀ (timerIdNull cbNull : Bool) (nameLen : Option Nat) (period_ms : Nat)
        (auto_reload staticBuf : Bool) (staticSize ctrlSize : Nat)
        (ctrlOk mutexOk condOk threadOk : Bool),
      ((osal_timer_create timerIdNull cbNull nameLen period_ms auto_reload staticBuf
          staticSize ctrlSize ctrlOk mutexOk condOk threadOk).status = .OSAL_SUCCESS
        ↔ (osal_timer_create timerIdNull cbNull nameLen period_ms auto_reload staticBuf
            staticSize ctrlSize ctrlOk mutexOk condOk threadOk).handle.isSome = true) ∧
      ((osal_timer_create timerIdNull cbNull nameLen period_ms auto_reload staticBuf
          staticSize ctrlSize ctrlOk mutexOk condOk threadOk).status ≠ .OSAL_SUCCESS →
        liveRes (osal_timer_create timerIdNull cbNull nameLen period_ms auto_reload
          staticBuf staticSize ctrlSize ctrlOk mutexOk condOk threadOk).events = [])) := by
  refine ⟨?_, ?_, ?_, ?_⟩
  · intro queueIdNull nameLen maxItems itemSize env
    unfold osal_queue_create
    by_cases c1 : queueIdNull = true
    · rw [if_pos c1]
      exact ⟨⟨fun h => osal_status.noConfusion h, fun h => Bool.noConfusion h⟩,
        fun _ => rfl⟩
    rw [if_neg c1]
    by_cases c2 : nameTooLong nameLen = true
    · rw [if_pos c2]
      exact ⟨⟨fun h => osal_status.noConfusion h, fun h => Bool.noConfusion h⟩,
        fun _ => rfl⟩
    rw [if_neg c2]
    by_cases c3 : ¬ 0 < maxItems
    · rw [if_pos c3]
      exact ⟨⟨fun h => osal_status.noConfusion h, fun h => Bool.noConfusion h⟩,
        fun _ => rfl⟩
    rw [if_neg c3]
    by_cases c4 : ¬ 0 < itemSize
    · rw [if_pos c4]
      exact ⟨⟨fun h => osal_status.noConfusion h, fun h => Bool.noConfusion h⟩,
        fun _ => rfl⟩
    rw [if_neg c4]
    by_cases c5 : SIZE_MAX_C / itemSize < maxItems
    · rw [if_pos c5]
      exact ⟨⟨fun h => osal_status.noConfusion h, fun h => Bool.noConfusion h⟩,
        fun _ => rfl⟩
    rw [if_neg c5]
    by_cases c6 : ¬ env.ctrlOk = true
    · rw [if_pos c6]
      exact ⟨⟨fun h => osal_status.noConfusion h, fun h => Bool.noConfusion h⟩,
        fun _ => rfl⟩
    rw [if_neg c6]
    by_cases c7 : ¬ env.bufOk = true
    · rw [if_pos c7]
      exact ⟨⟨fun h => osal_status.noConfusion h, fun h => Bool.noConfusion h⟩,
        fun _ => rfl⟩
    rw [if_neg c7]
    by_cases c8 : ¬ env.mutexOk = true
    · rw [if_pos c8]
      exact ⟨⟨fun h => osal_status.noConfusion h, fun h => Bool.noConfusion h⟩,
        fun _ => rfl⟩
    rw [if_neg c8]
    by_cases c9 : ¬ env.notEmptyOk = true
    · rw [if_pos c9]
      exact ⟨⟨fun h => osal_status.noConfusion h, fun h => Bool.noConfusion h⟩,
        fun _ => rfl⟩
    rw [if_neg c9]
    by_cases c10 : ¬ env.notFullOk = true
    · rw [if_pos c10]
      exact ⟨⟨fun h => osal_status.noConfusion h, fun h => Bool.noConfusion h⟩,
        fun _ => rfl⟩
    rw [if_neg c10]
    exact ⟨⟨fun _ => rfl, fun _ => rfl⟩, fun hne => absurd rfl hne⟩
  · intro semIdNull nameLen ini maxv ctrlOk semInitOk
    unfold osal_count_sem_create
    by_cases c1 : semIdNull = true
    · rw [if_pos c1]
      exact ⟨⟨fun h => osal_status.noConfusion h, fun h => Bool.noConfusion h⟩,
        fun _ => rfl⟩
    rw [if_neg c1]
    by_cases c2 : nameTooLong nameLen = true
    · rw [if_pos c2]
      exact ⟨⟨fun h => osal_status.noConfusion h, fun h => Bool.noConfusion h⟩,
        fun _ => rfl⟩
    rw [if_neg c2]
    by_cases c3 : maxv ≠ 0 ∧ maxv < ini
    · rw [if_pos c3]
      exact ⟨⟨fun h => osal_status.noConfusion h, fun h => Bool.noConfusion h⟩,
        fun _ => rfl⟩
    rw [if_neg c3]
    by_cases c4 : ¬ ctrlOk = true
    · rw [if_pos c4]
      exact ⟨⟨fun h => osal_status.noConfusion h, fun h => Bool.noConfusion h⟩,
        fun _ => rfl⟩
    rw [if_neg c4]
    by_cases c5 : ¬ semInitOk = true
    · rw [if_pos c5]
      exact ⟨⟨fun h => osal_status.noConfusion h, fun h => Bool.noConfusion h⟩,
        fun _ => rfl⟩
    rw [if_neg c5]
    exact ⟨⟨fun _ => rfl, fun _ => rfl⟩, fun hne => absurd rfl hne⟩
  · intro mutexIdNull nameLen ctrlOk mtxOk
    unfold osal_mutex_create
    by_cases c1 : mutexIdNull = true
    · rw [if_pos c1]
      exact ⟨⟨fun h => osal_status.noConfusion h, fun h => Bool.noConfusion h⟩,
        fun _ => rfl⟩
    rw [if_neg c1]
    by_cases c2 : nameTooLong nameLen = true
    · rw [if_pos c2]
      exact ⟨⟨fun h => osal_status.noConfusion h, fun h => Bool.noConfusion h⟩,
        fun _ => rfl⟩
    rw [if_neg c2]
    by_cases c3 : ¬ ctrlOk = true
    · rw [if_pos c3]
      exact ⟨⟨fun h => osal_status.noConfusion h, fun h => Bool.noConfusion h⟩,
        fun _ => rfl⟩
    rw [if_neg c3]
    by_cases c4 : ¬ mtxOk = true
    · rw [if_pos c4]
      exact ⟨⟨fun h => osal_status.noConfusion h, fun h => Bool.noConfusion h⟩,
        fun _ => rfl⟩
    rw [if_neg c4]
    exact ⟨⟨fun _ => rfl, fun _ => rfl⟩, fun hne => absurd rfl hne⟩
  · intro timerIdNull cbNull nameLen period_ms auto_reload staticBuf staticSize
      ctrlSize ctrlOk mutexOk condOk threadOk
    simp only [osal_timer_create]
    by_cases c1 : timerIdNull = true
    · rw [if_pos c1]
      exact ⟨⟨fun h => osal_status.noConfusion h, fun h => Bool.noConfusion h⟩,
        fun _ => rfl⟩
    rw [if_neg c1]
    by_cases c2 : cbNull = true
    · rw [if_pos c2]
      exact ⟨⟨fun h => osal_status.noConfusion h, fun h => Bool.noConfusion h⟩,
        fun _ => rfl⟩
    rw [if_neg c2]
    by_cases c3 : nameTooLong nameLen = true
    · rw [if_pos c3]
      exact ⟨⟨fun h => osal_status.noConfusion h, fun h => Bool.noConfusion h⟩,
        fun _ => rfl⟩
    rw [if_neg c3]
    by_cases c4 : ¬ 0 < period_ms
    · rw [if_pos c4]
      exact ⟨⟨fun h => osal_status.noConfusion h, fun h => Bool.noConfusion h⟩,
        fun _ => rfl⟩
    rw [if_neg c4]
    by_cases c5 : staticBuf = true ∧ staticSize < ctrlSize
    · rw [if_pos c5]
      exact ⟨⟨fun h => osal_status.noConfusion h, fun h => Bool.noConfusion h⟩,
        fun _ => rfl⟩
    rw [if_neg c5]
    by_cases c6 : ¬ staticBuf = true ∧ ¬ ctrlOk = true
    · rw [if_pos c6]
      exact ⟨⟨fun h => osal_status.noConfusion h, fun h => Bool.noConfusion h⟩,
        fun _ => rfl⟩
    rw [if_neg c6]
    by_cases c7 : ¬ mutexOk = true
    · rw [if_pos c7]
      exact ⟨⟨fun h => osal_status.noConfusion h, fun h => Bool.noConfusion h⟩,
        fun _ => by cases staticBuf <;> rfl⟩
    rw [if_neg c7]
    by_cases c8 : ¬ condOk = true
    · rw [if_pos c8]
      exact ⟨⟨fun h => osal_status.noConfusion h, fun h => Bool.noConfusion h⟩,
        fun _ => by cases staticBuf <;> rfl⟩
    rw [if_neg c8]
    by_cases c9 : ¬ threadOk = true
    · rw [if_pos c9]
      exact ⟨⟨fun h => osal_status.noConfusion h, fun h => Bool.noConfusion h⟩,
        fun _ => by cases staticBuf <;> rfl⟩
    rw [if_neg c9]
    exact ⟨⟨fun _ => rfl, fun _ => rfl⟩, fun hne => absurd rfl hne⟩

/-- Witness for C10: a queue create whose ring-buffer malloc fails and a
timer create whose worker-thread creation fails both leave no live
allocations. -/
theorem c10_create_atomicity_witness :
    liveRes (osal_queue_create false none 2 4 ⟨true, false, true, true, true, []⟩).events
        = [] ∧
    liveRes (osal_timer_create false false none 100 false false 0 64
        true true true false).events = [] :=
  ⟨(c10_create_atomicity.1 false none 2 4 ⟨true, false, true, true, true, []⟩).2
      (by decide),
   (c10_create_atomicity.2.2.2 false false none 100 false false 0 64
      true true true false).2 (by decide)⟩

end HqOsal
